import Mathlib

/-!
Shallow embedding of the Tortoise-BOT repository (files `bot/api_client.py`
and `bot/cogs/tortoise_server.py`) used to check the natural-language
specification against the code.

Remote HTTP traffic and chat-SDK side effects are modelled as explicit
`Effect` traces; JSON payloads are modelled by an inductive `Json` type;
Python exceptions that the handlers can raise or catch are modelled by
`PyExc`.  Each definition mirrors one Python function of the source and
keeps its name.
-/

/-- A JSON value, as produced by `json.dumps` / consumed by `json.loads`
and by `aiohttp`'s `response.json()`. -/
inductive Json where
  | null : Json
  | bool (b : Bool) : Json
  | num (n : Int) : Json
  | str (s : String) : Json
  | arr (items : List Json) : Json
  | obj (fields : List (String × Json)) : Json
  deriving Repr

/-- Python truthiness of a JSON value (`None`, `False`, `0`, `""`, `[]`,
`{}` are falsy).  Used to model the `response_json or {}` expression in
`ResponseCodeError.__init__`. -/
def Json.isTruthy : Json → Bool
  | .null => false
  | .bool b => b
  | .num n => n != 0
  | .str s => s ≠ ""
  | .arr items => !items.isEmpty
  | .obj fields => !fields.isEmpty

/-- Field lookup on a JSON object (`body["key"]`); `none` when the value is
not an object or the key is absent. -/
def Json.lookupField : Json → String → Option Json
  | .obj fields, key => fields.lookup key
  | _, _ => none

/-- An HTTP response as seen by `APIClient`: its status code, its body
parsed as JSON when the body is JSON (`response.json()` raises
`aiohttp.ContentTypeError` exactly when `jsonBody = none`), and its raw
text. -/
structure HttpResponse where
  status : Nat
  jsonBody : Option Json
  textBody : String
  deriving Repr

/-- The typed error `ResponseCodeError` of `bot/api_client.py`.
`__init__` stores `response.status`, `response_json or {}` and the
`response_text` argument (default `""`). -/
structure ResponseCodeError where
  status : Nat
  response_json : Json
  response_text : String
  deriving Repr

/-- `ResponseCodeError.__init__` called with a parsed JSON body:
`response_json or {}` keeps the parsed value when it is truthy and
otherwise stores the empty object; `response_text` keeps its default
`""`. -/
def ResponseCodeError.ofJson (status : Nat) (j : Json) : ResponseCodeError :=
  { status := status
    response_json := if j.isTruthy then j else Json.obj []
    response_text := "" }

/-- `ResponseCodeError.__init__` called with raw text (the
`aiohttp.ContentTypeError` branch): `response_json` defaults to the empty
object. -/
def ResponseCodeError.ofText (status : Nat) (t : String) : ResponseCodeError :=
  { status := status, response_json := Json.obj [], response_text := t }

/-- `APIClient.raise_for_status`: raises `ResponseCodeError` exactly when
`response.status >= 400`, carrying the parsed JSON body when
`response.json()` succeeds and the raw text when it raises
`ContentTypeError`.  `some e` models raising `e`; `none` models returning
normally. -/
def raise_for_status (resp : HttpResponse) : Option ResponseCodeError :=
  if resp.status ≥ 400 then
    match resp.jsonBody with
    | some j => some (ResponseCodeError.ofJson resp.status j)
    | none => some (ResponseCodeError.ofText resp.status resp.textBody)
  else
    none

/-- The shared body of the verb methods `APIClient.get` / `post` / `put` /
`patch`: run `raise_for_status`, then return the JSON body.  `Except.error`
models the exception propagating out of the verb method. -/
def verbRequest (resp : HttpResponse) : Except ResponseCodeError (Option Json) :=
  match raise_for_status resp with
  | some e => Except.error e
  | none => Except.ok resp.jsonBody

/-- `APIClient.delete`: a 204 returns `None` before `raise_for_status` is
consulted; otherwise it behaves like the other verb methods. -/
def deleteRequest (resp : HttpResponse) : Except ResponseCodeError (Option Json) :=
  if resp.status == 204 then Except.ok none else verbRequest resp

/-- The HTTP verbs used by `APIClient`. -/
inductive Verb where
  | get
  | post
  | put
  | patch
  | delete
  deriving Repr, DecidableEq

/-- One HTTP request issued by the REST client: verb, endpoint (relative to
the fixed base URL) and optional JSON payload. -/
structure Request where
  verb : Verb
  endpoint : String
  body : Option Json
  deriving Repr

/-- A request is a remote write when its verb is POST, PUT, PATCH or
DELETE. -/
def Request.isWrite (r : Request) : Bool :=
  match r.verb with
  | .get => false
  | _ => true

/-- The fields of a `discord.Member` that the REST client reads
(`member.id`, `member.guild.id`, `member.display_name`,
`member.discriminator`). -/
structure MemberInfo where
  id : Nat
  guild_id : Nat
  display_name : String
  discriminator : String
  deriving Repr, DecidableEq

/-- `TortoiseAPI.insert_new_member`: POST to `members/` with the new
member's data; `now` stands for `datetime.now(timezone.utc).isoformat()`.
The payload has `member: true` and no `leave_date` key at all. -/
def insert_new_member (m : MemberInfo) (now : String) : Request :=
  { verb := .post
    endpoint := "members/"
    body := some (Json.obj
      [("user_id", Json.num (Int.ofNat m.id)),
       ("guild_id", Json.num (Int.ofNat m.guild_id)),
       ("join_date", Json.str now),
       ("name", Json.str m.display_name),
       ("tag", Json.str m.discriminator),
       ("member", Json.bool true)]) }

/-- `TortoiseAPI.member_rejoined`: PUT to `members/edit/{id}/` with
`member: true` and `leave_date: null`. -/
def member_rejoined (m : MemberInfo) : Request :=
  { verb := .put
    endpoint := "members/edit/" ++ toString m.id ++ "/"
    body := some (Json.obj
      [("user_id", Json.num (Int.ofNat m.id)),
       ("guild_id", Json.num (Int.ofNat m.guild_id)),
       ("member", Json.bool true),
       ("leave_date", Json.null)]) }

/-- `TortoiseAPI.member_left`: PUT to `members/edit/{id}/` with
`member: false` and `leave_date` set to the current time. -/
def member_left (m : MemberInfo) (now : String) : Request :=
  { verb := .put
    endpoint := "members/edit/" ++ toString m.id ++ "/"
    body := some (Json.obj
      [("user_id", Json.num (Int.ofNat m.id)),
       ("guild_id", Json.num (Int.ofNat m.guild_id)),
       ("leave_date", Json.str now),
       ("member", Json.bool false)]) }

/-- `TortoiseAPI.edit_member_roles`: PUT to `members/edit/{id}/` with the
member's current role-id list. -/
def edit_member_roles (m : MemberInfo) (roles_ids : List Nat) : Request :=
  { verb := .put
    endpoint := "members/edit/" ++ toString m.id ++ "/"
    body := some (Json.obj
      [("user_id", Json.num (Int.ofNat m.id)),
       ("guild_id", Json.num (Int.ofNat m.guild_id)),
       ("roles", Json.arr (roles_ids.map fun rid => Json.num (Int.ofNat rid)))]) }

/-- `TortoiseAPI.get_member_meta`: GET `member/meta/{id}/`. -/
def get_member_meta_req (member_id : Nat) : Request :=
  { verb := .get, endpoint := "member/meta/" ++ toString member_id ++ "/", body := none }

/-- `TortoiseAPI.get_member_roles`: GET `members/{id}/roles/`. -/
def get_member_roles_req (member_id : Nat) : Request :=
  { verb := .get, endpoint := "members/" ++ toString member_id ++ "/roles/", body := none }

/-- A write payload has `member == true` when its JSON body maps the key
`member` to `true`. -/
def memberFlagTrue (r : Request) : Bool :=
  match r.body with
  | some b =>
    match b.lookupField "member" with
    | some (Json.bool true) => true
    | _ => false
  | none => false

/-- A write payload has a non-null `leave_date` when its JSON body maps the
key `leave_date` to something other than `null`. -/
def hasNonNullLeaveDate (r : Request) : Bool :=
  match r.body with
  | some b =>
    match b.lookupField "leave_date" with
    | some Json.null => false
    | some _ => true
    | none => false
  | none => false

/-- An observable effect of a handler: a REST-API request, or a chat-SDK
side effect (role grant/revoke on a member, message to a channel, direct
message to a user). -/
inductive Effect where
  | api (r : Request) : Effect
  | addRole (memberId roleId : Nat) : Effect
  | removeRole (memberId roleId : Nat) : Effect
  | sendChannel (channelId : Nat) : Effect
  | sendDM (userId : Nat) : Effect
  deriving Repr

/-- An action is a remote write when it is a REST request whose verb is
POST, PUT, PATCH or DELETE.  Chat-SDK effects are not REST-API writes. -/
def Effect.isRemoteWrite : Effect → Bool
  | .api r => r.isWrite
  | _ => false

/-- An action changes a member's roles when it is a chat-SDK role grant or
revoke. -/
def Effect.isRoleChange : Effect → Bool
  | .addRole _ _ => true
  | .removeRole _ _ => true
  | _ => false

/-- Python exceptions relevant to the embedded handlers:
`discord.errors.HTTPException`, the `AttributeError` raised by
`member.add_roles(None)` (`None` has no attribute `id`), and the
`TypeError` raised by `json.loads` on a non-string argument. -/
inductive PyExc where
  | httpExc
  | attributeError
  | typeError
  | valueError
  deriving Repr, DecidableEq

/-- The fixed collaborators of the `TortoiseServer` cog, resolved in its
`__init__` from `bot.constants`: the guild's current role ids, the cached
verified/unverified role objects and the channels the handlers post to.
`addRoleFails rid` models `member.add_roles(role)` raising
`discord.errors.HTTPException` for that role; `removeUnverifiedFails`
models the same for `member.remove_roles(self.unverified_role)`. -/
structure ServerEnv where
  guildRoles : List Nat
  verified_role : Nat
  unverified_role : Nat
  verification_channel : Nat
  log_channel : Nat
  addRoleFails : Nat → Bool
  removeUnverifiedFails : Bool

/-- `discord.Guild.get_role`: `some rid` when the role id resolves in the
guild, `none` otherwise. -/
def ServerEnv.get_role (env : ServerEnv) (rid : Nat) : Option Nat :=
  if rid ∈ env.guildRoles then some rid else none

/-- The list comprehension
`roles = [self.tortoise_guild.get_role(role_id) for role_id in additional_roles]`
followed by `roles.append(self.verified_role)`.  The appended element is
the cached verified-role object, hence always present. -/
def resolveRoles (env : ServerEnv) (additional_roles : List Nat) : List (Option Nat) :=
  additional_roles.map env.get_role ++ [some env.verified_role]

/-- The `for role in roles` loop of
`TortoiseServer.add_verified_roles_to_member`:
each iteration runs `await member.add_roles(role)` inside
`try ... except HTTPException: continue`.  An `HTTPException` is caught and
the loop continues; `member.add_roles(None)` raises `AttributeError`
(`None` has no attribute `id`), which is not an `HTTPException`, so it
aborts the loop and propagates.  Returns the successful role grants and
the escaping exception, if any. -/
def applyRolesLoop (env : ServerEnv) (memberId : Nat) :
    List (Option Nat) → List Effect × Option PyExc
  | [] => ([], none)
  | none :: _ => ([], some PyExc.attributeError)
  | some rid :: rest =>
    if env.addRoleFails rid then
      applyRolesLoop env memberId rest
    else
      let p := applyRolesLoop env memberId rest
      (Effect.addRole memberId rid :: p.1, p.2)

/-- `TortoiseServer.add_verified_roles_to_member`:
remove the unverified role (an `HTTPException` there is caught and
logged), set `self._database_role_update_lock = True`, resolve the role
ids and loop over them, then reset the lock to `False`.  The reset is an
ordinary statement, not a `finally` block, so an exception escaping the
loop skips it and leaves the lock `True`.  Returns the action trace, the
final value of `_database_role_update_lock` and the escaping exception, if
any. -/
def add_verified_roles_to_member (env : ServerEnv) (memberId : Nat)
    (additional_roles : List Nat) : List Effect × Bool × Option PyExc :=
  let pre : List Effect :=
    if env.removeUnverifiedFails then []
    else [Effect.removeRole memberId env.unverified_role]
  let p := applyRolesLoop env memberId (resolveRoles env additional_roles)
  match p.2 with
  | some e => (pre ++ p.1, true, some e)
  | none => (pre ++ p.1, false, none)

/-- `TortoiseServer._new_member_register_in_database`: insert the member
via the REST API, add the unverified role, ghost-ping the verification
channel, post a welcome embed to the log channel, and DM the member. -/
def new_member_register_in_database (env : ServerEnv) (m : MemberInfo)
    (now : String) : List Effect :=
  [Effect.api (insert_new_member m now),
   Effect.addRole m.id env.unverified_role,
   Effect.sendChannel env.verification_channel,
   Effect.sendChannel env.log_channel,
   Effect.sendDM m.id]

/-- `TortoiseServer._new_member_re_joined`.  `storedRoles` is the role-id
list the REST call `get_member_roles` returns from the remote record.
Verified branch: fetch stored roles, bulk-apply them (plus the verified
role), mark the member rejoined, post to the log channel and DM the
member; an exception escaping the bulk apply propagates and skips the
remaining steps.  Unverified branch: mark rejoined, re-apply the
unverified role, post to log and verification channels and DM the member.
Returns the trace, the final lock value and the escaping exception. -/
def new_member_re_joined (env : ServerEnv) (lock : Bool) (m : MemberInfo)
    (storedRoles : List Nat) (verified : Bool) : List Effect × Bool × Option PyExc :=
  if verified then
    let fetch := Effect.api (get_member_roles_req m.id)
    let p := add_verified_roles_to_member env m.id storedRoles
    match p.2.2 with
    | some e => (fetch :: p.1, p.2.1, some e)
    | none =>
      (fetch :: p.1 ++
        [Effect.api (member_rejoined m),
         Effect.sendChannel env.log_channel,
         Effect.sendDM m.id],
       p.2.1, none)
  else
    ([Effect.api (member_rejoined m),
      Effect.addRole m.id env.unverified_role,
      Effect.sendChannel env.log_channel,
      Effect.sendChannel env.verification_channel,
      Effect.sendDM m.id],
     lock, none)

/-- The outcome of `await self.bot.api_client.get_member_meta(member.id)`
inside `on_member_join`: either the fetch raises `ResponseCodeError` (no
remote record) or it returns a record with a `leave_date` and a `verified`
field. -/
inductive MetaResult where
  | notFound
  | found (leave_date : Option String) (verified : Bool)
  deriving Repr, DecidableEq

/-- `TortoiseServer.on_member_join`: fetch the member meta; on
`ResponseCodeError` register the member as new; otherwise, when
`leave_date is None and verified`, do nothing; otherwise take the re-join
path with the record's `verified` flag.  `lock` is the current value of
`_database_role_update_lock`; `storedRoles` is what `get_member_roles`
would return on the re-join path.  Returns the trace, the final lock value
and the escaping exception. -/
def on_member_join (env : ServerEnv) (lock : Bool) (m : MemberInfo) (now : String)
    (meta : MetaResult) (storedRoles : List Nat) : List Effect × Bool × Option PyExc :=
  let fetch := Effect.api (get_member_meta_req m.id)
  match meta with
  | .notFound => (fetch :: new_member_register_in_database env m now, lock, none)
  | .found leave_date verified =>
    if leave_date = none ∧ verified = true then
      ([fetch], lock, none)
    else
      let p := new_member_re_joined env lock m storedRoles verified
      (fetch :: p.1, p.2.1, p.2.2)

/-- `TortoiseServer.on_member_update`: when the role lists are equal or
`_database_role_update_lock` is set, return without any action; otherwise
save the member's new role-id list remotely via `edit_member_roles`. -/
def on_member_update (lock : Bool) (m : MemberInfo)
    (beforeRoles afterRoles : List Nat) : List Effect :=
  if beforeRoles = afterRoles ∨ lock = true then []
  else [Effect.api (edit_member_roles m afterRoles)]

/-- The static configuration the reaction handlers read:
`constants.react_for_roles_channel_id`, the `constants.self_assignable_roles`
emoji-id → role-id mapping, and the guild's current role ids (for
`guild.get_role`). -/
structure ReactionCfg where
  react_for_roles_channel_id : Nat
  self_assignable_roles : Nat → Option Nat
  guildRoles : List Nat

/-- `discord.Guild.get_role` as used by the reaction handlers. -/
def ReactionCfg.get_role (cfg : ReactionCfg) (rid : Nat) : Option Nat :=
  if rid ∈ cfg.guildRoles then some rid else none

/-- The fields of a `discord.RawReactionActionEvent` payload read by the
handlers. -/
structure RawReactionPayload where
  channel_id : Nat
  guild_id : Nat
  user_id : Nat
  emoji_id : Nat
  deriving Repr, DecidableEq

/-- `TortoiseServer.get_assignable_role`: look the emoji id up in the
static `self_assignable_roles` mapping; on a hit, resolve the role id in
the guild.  Both miss cases log a critical message and return `None`. -/
def get_assignable_role (cfg : ReactionCfg) (p : RawReactionPayload) : Option Nat :=
  match cfg.self_assignable_roles p.emoji_id with
  | some role_id => cfg.get_role role_id
  | none => none

/-- `TortoiseServer.on_raw_reaction_add`: only reacts on the designated
channel; looks up the assignable role, returns without effect when the
reacting user is the bot itself, otherwise grants the role (when one was
found) and DMs the member a confirmation. -/
def on_raw_reaction_add (cfg : ReactionCfg) (botUserId : Nat)
    (p : RawReactionPayload) : List Effect :=
  if p.channel_id = cfg.react_for_roles_channel_id then
    let role := get_assignable_role cfg p
    if p.user_id = botUserId then []
    else
      match role with
      | some rid => [Effect.addRole p.user_id rid, Effect.sendDM p.user_id]
      | none => []
  else []

/-- `TortoiseServer.on_raw_reaction_remove`: only reacts on the designated
channel; looks up the assignable role and revokes it from the reacting
member when one was found.  Unlike the add handler, it performs no check
that the reacting user is the bot itself. -/
def on_raw_reaction_remove (cfg : ReactionCfg) (p : RawReactionPayload) : List Effect :=
  if p.channel_id = cfg.react_for_roles_channel_id then
    match get_assignable_role cfg p with
    | some rid => [Effect.removeRole p.user_id rid]
    | none => []
  else []

/-! `json.dumps` on the JSON values this bot serializes (warning dicts with
plain string contents: no escaping is needed).  Mutually recursive with the
printers for array items and object fields, which insert the `", "` and
`": "` separators Python uses by default. -/
mutual

/-- `json.dumps` on one JSON value. -/
def json_dumps : Json → String
  | .null => "null"
  | .bool true => "true"
  | .bool false => "false"
  | .num n => toString n
  | .str s => "\"" ++ s ++ "\""
  | .arr items => "[" ++ json_dumpsItems items ++ "]"
  | .obj fields => "\x7b" ++ json_dumpsFields fields ++ "\x7d"

def json_dumpsItems : List Json → String
  | [] => ""
  | [x] => json_dumps x
  | x :: y :: rest => json_dumps x ++ ", " ++ json_dumpsItems (y :: rest)

def json_dumpsFields : List (String × Json) → String
  | [] => ""
  | [kv] => "\"" ++ kv.1 ++ "\": " ++ json_dumps kv.2
  | kv :: f :: rest =>
    "\"" ++ kv.1 ++ "\": " ++ json_dumps kv.2 ++ ", " ++ json_dumpsFields (f :: rest)

end

/-- Skip the blanks a serialized payload may contain between tokens. -/
def skipWs : List Char → List Char
  | [] => []
  | c :: cs => if c == ' ' then skipWs cs else c :: cs

/-- Consume the characters of a JSON string literal up to the closing
quote (no escape sequences; the serialized warnings contain none). -/
def takeStringChars : List Char → Option (String × List Char)
  | [] => none
  | c :: cs =>
    if c == '"' then some ("", cs)
    else
      match takeStringChars cs with
      | some (s, rest) => some (c.toString ++ s, rest)
      | none => none

/-- Consume a maximal run of decimal digits. -/
def takeDigits : List Char → List Char × List Char
  | [] => ([], [])
  | c :: cs =>
    if c.isDigit then
      let p := takeDigits cs
      (c :: p.1, p.2)
    else ([], c :: cs)

/-- The natural number denoted by a digit run. -/
def digitsToNat (ds : List Char) : Nat :=
  ds.foldl (fun a c => a * 10 + (c.toNat - 48)) 0

/-! Recursive-descent JSON reader used to model `json.loads`; `fuel`
bounds the recursion depth and is always sufficient for inputs produced by
`json_dumps`.  `parseValue` reads one value, `parseItems` the items of a
non-empty array after its `[`, `parseFields` the fields of a non-empty
object after its opening brace. -/
mutual

/-- Read one JSON value. -/
def parseValue : Nat → List Char → Option (Json × List Char)
  | 0, _ => none
  | fuel + 1, input =>
    match skipWs input with
    | [] => none
    | c :: cs =>
      if c == 'n' then
        match cs with
        | 'u' :: 'l' :: 'l' :: rest => some (Json.null, rest)
        | _ => none
      else if c == 't' then
        match cs with
        | 'r' :: 'u' :: 'e' :: rest => some (Json.bool true, rest)
        | _ => none
      else if c == 'f' then
        match cs with
        | 'a' :: 'l' :: 's' :: 'e' :: rest => some (Json.bool false, rest)
        | _ => none
      else if c == '"' then
        match takeStringChars cs with
        | some (s, rest) => some (Json.str s, rest)
        | none => none
      else if c == '-' then
        let p := takeDigits cs
        if p.1.isEmpty then none
        else some (Json.num (-(Int.ofNat (digitsToNat p.1))), p.2)
      else if c.isDigit then
        let p := takeDigits (c :: cs)
        some (Json.num (Int.ofNat (digitsToNat p.1)), p.2)
      else if c == '[' then
        match skipWs cs with
        | ']' :: rest => some (Json.arr [], rest)
        | cs2 => parseItems fuel cs2
      else if c == '\x7b' then
        match skipWs cs with
        | '\x7d' :: rest => some (Json.obj [], rest)
        | cs2 => parseFields fuel cs2
      else none

def parseItems : Nat → List Char → Option (Json × List Char)
  | 0, _ => none
  | fuel + 1, input =>
    match parseValue fuel input with
    | some (v, rest) =>
      match skipWs rest with
      | ',' :: rest2 =>
        match parseItems fuel rest2 with
        | some (Json.arr vs, rest3) => some (Json.arr (v :: vs), rest3)
        | _ => none
      | ']' :: rest2 => some (Json.arr [v], rest2)
      | _ => none
    | none => none

def parseFields : Nat → List Char → Option (Json × List Char)
  | 0, _ => none
  | fuel + 1, input =>
    match skipWs input with
    | '"' :: cs =>
      match takeStringChars cs with
      | some (k, rest) =>
        match skipWs rest with
        | ':' :: rest2 =>
          match parseValue fuel rest2 with
          | some (v, rest3) =>
            match skipWs rest3 with
            | ',' :: rest4 =>
              match parseFields fuel rest4 with
              | some (Json.obj fs, rest5) => some (Json.obj ((k, v) :: fs), rest5)
              | _ => none
            | '\x7d' :: rest4 => some (Json.obj [(k, v)], rest4)
            | _ => none
          | none => none
        | _ => none
      | none => none
    | _ => none

end

/-- `json.loads` on a string: parse one JSON value and require nothing but
blanks to remain; `none` models `json.JSONDecodeError`. -/
def json_loads (s : String) : Option Json :=
  match parseValue (s.length + 1) s.data with
  | some (v, rest) => if (skipWs rest).isEmpty then some v else none
  | none => none

/-- `json.loads(item)` applied to a value taken from a JSON list, as in the
comprehension of `get_member_warnings`: a string is parsed
(`JSONDecodeError`, a `ValueError`, when malformed); any non-string value
raises `TypeError` (`the JSON object must be str, bytes or bytearray`). -/
def pyJsonLoads : Json → Except PyExc Json
  | Json.str s =>
    match json_loads s with
    | some v => Except.ok v
    | none => Except.error PyExc.valueError
  | _ => Except.error PyExc.typeError

/-- `TortoiseAPI.get_member_warnings`, applied to the `warnings` field of
the stored member-meta record: deserialize every item with `json.loads`.
The first failing item's exception propagates out of the list
comprehension. -/
def get_member_warnings (warnings : List Json) : Except PyExc (List Json) :=
  warnings.mapM pyJsonLoads

/-- `TortoiseAPI.get_member_warnings_count`: the length of the
deserialized warnings list. -/
def get_member_warnings_count (warnings : List Json) : Except PyExc Nat :=
  (get_member_warnings warnings).map List.length

/-- The `new_warning` dict built by `TortoiseAPI.add_member_warning`;
`now` stands for `datetime.now(timezone.utc).isoformat()`. -/
def new_warning (mod_id : Nat) (reason now : String) : Json :=
  Json.obj
    [("mod", Json.num (Int.ofNat mod_id)),
     ("reason", Json.str reason),
     ("date", Json.str now)]

/-- `TortoiseAPI.add_member_warning`: fetch and deserialize the current
warnings, append the *serialized* new warning to the *deserialized* list,
and PUT that mixed list back as the new `warnings` value (the endpoint
stores the sent list verbatim).  Returns the stored `warnings` value after
the write. -/
def add_member_warning (warnings : List Json) (mod_id : Nat) (reason now : String) :
    Except PyExc (List Json) := do
  let current ← get_member_warnings warnings
  pure (current ++ [Json.str (json_dumps (new_warning mod_id reason now))])

/-- The PUT request `add_member_warning` sends to `member/meta/{id}/`. -/
def add_member_warning_request (member_id : Nat) (newList : List Json) : Request :=
  { verb := .put
    endpoint := "member/meta/" ++ toString member_id ++ "/"
    body := some (Json.obj [("warnings", Json.arr newList)]) }

/-! Concrete fixtures used by the counterexamples and witnesses. -/

/-- A concrete cog environment: guild roles 5, 100 (verified) and 200
(unverified); no chat-SDK call fails with `HTTPException`. -/
def env0 : ServerEnv :=
  { guildRoles := [5, 100, 200]
    verified_role := 100
    unverified_role := 200
    verification_channel := 11
    log_channel := 12
    addRoleFails := fun _ => false
    removeUnverifiedFails := false }

/-- A concrete member. -/
def m0 : MemberInfo :=
  { id := 42, guild_id := 1, display_name := "alice", discriminator := "0001" }

/-- A concrete reaction configuration: designated channel 10, emoji 7
mapped to role 5, role 5 present in the guild. -/
def cfg0 : ReactionCfg :=
  { react_for_roles_channel_id := 10
    self_assignable_roles := fun e => if e == 7 then some 5 else none
    guildRoles := [5] }

/-- A reaction payload on the designated channel by user 99 (the bot's
own id in the scenarios below) with the mapped emoji 7. -/
def botPayload0 : RawReactionPayload :=
  { channel_id := 10, guild_id := 1, user_id := 99, emoji_id := 7 }

/-- A reaction payload on the designated channel by user 50 with the
unmapped emoji 8. -/
def unmappedPayload0 : RawReactionPayload :=
  { channel_id := 10, guild_id := 1, user_id := 50, emoji_id := 8 }

/-- A 301 response: non-2xx, but below the `>= 400` threshold of
`raise_for_status`. -/
def resp301 : HttpResponse :=
  { status := 301, jsonBody := none, textBody := "Moved Permanently" }

/-- A 404 response with a JSON body. -/
def resp404 : HttpResponse :=
  { status := 404, jsonBody := some (Json.obj [("detail", Json.str "Not found.")]), textBody := "" }

/-- A warning as the remote API stores it per the `get_member_warnings`
docstring: a JSON-encoded string. -/
def storedWarning : Json :=
  Json.obj
    [("date", Json.str "2020-05-04T21:36:43.045204+00:00"),
     ("reason", Json.str "test"),
     ("mod", Json.num 197918569894379520)]

/-- A remote warnings list in the documented stored format (one
serialized warning). -/
def warnings0 : List Json := [Json.str (json_dumps storedWarning)]

/-- The warnings list `add_member_warning` stores when run on
`warnings0`: the old warning now a plain object, the new one a string. -/
def warnings1 : List Json :=
  [storedWarning, Json.str (json_dumps (new_warning 7 "spam" "2020-06-01T00:00:00+00:00"))]

/-- C1: for a join of a member whose record has `verified=true` and a
non-null `leave_date`, a stored role id that no longer resolves in the
guild is NOT skipped silently: `get_role` returns `None`,
`member.add_roles(None)` raises `AttributeError`, which the
`except HTTPException` clause does not catch.  On stored roles `[999, 5]`
with 999 gone from the guild, the handler grants neither role 5 nor the
verified role, never sends `member_rejoined`, leaves the lock `True`, and
the exception propagates — contradicting the claim that stale ids are
skipped with the remaining roles still applied. -/
theorem on_member_join_stale_role_id_crashes :
    env0.get_role 999 = none ∧
    env0.get_role 5 = some 5 ∧
    on_member_join env0 false m0 "2020-06-01T00:00:00+00:00"
        (MetaResult.found (some "2020-05-01T00:00:00+00:00") true) [999, 5] =
      ([Effect.api (get_member_meta_req 42),
        Effect.api (get_member_roles_req 42),
        Effect.removeRole 42 200],
       true, some PyExc.attributeError) :=
  ⟨rfl, rfl, rfl⟩

/-- C2: for a join of a member with no remote record (the member-meta GET
raises `ResponseCodeError`), the handler's trace is exactly the meta GET,
one `insert_new_member` POST, the unverified-role grant, and three chat
messages; in particular the only remote write in the trace is the single
insert, and it precedes the role grant. -/
theorem on_member_join_not_found_single_insert (env : ServerEnv) (lock : Bool)
    (m : MemberInfo) (now : String) (storedRoles : List Nat) :
    on_member_join env lock m now MetaResult.notFound storedRoles =
      ([Effect.api (get_member_meta_req m.id),
        Effect.api (insert_new_member m now),
        Effect.addRole m.id env.unverified_role,
        Effect.sendChannel env.verification_channel,
        Effect.sendChannel env.log_channel,
        Effect.sendDM m.id], lock, none) ∧
    ((on_member_join env lock m now MetaResult.notFound storedRoles).1.filter
        Effect.isRemoteWrite) = [Effect.api (insert_new_member m now)] :=
  ⟨rfl, rfl⟩

/-- C3: for a join of a member whose record has `leave_date` null and
`verified=true`, the handler only performs the member-meta GET: its trace
contains no remote write and no role change, and the lock is unchanged. -/
theorem on_member_join_current_verified_noop (env : ServerEnv) (lock : Bool)
    (m : MemberInfo) (now : String) (storedRoles : List Nat) :
    on_member_join env lock m now (MetaResult.found none true) storedRoles =
      ([Effect.api (get_member_meta_req m.id)], lock, none) ∧
    ((on_member_join env lock m now (MetaResult.found none true) storedRoles).1.filter
        Effect.isRemoteWrite) = [] ∧
    ((on_member_join env lock m now (MetaResult.found none true) storedRoles).1.filter
        Effect.isRoleChange) = [] :=
  ⟨rfl, rfl, rfl⟩

/-- C4, counterexample: a 301 response is non-2xx, yet `raise_for_status`
returns normally and the verb method returns the body instead of raising
the typed error — the code's threshold is `status >= 400`, not
"non-2xx". -/
theorem raise_for_status_non2xx_counterexample :
    (resp301.status < 200 ∨ 300 ≤ resp301.status) ∧
    raise_for_status resp301 = none ∧
    verbRequest resp301 = Except.ok none :=
  ⟨Or.inr (by decide), rfl, rfl⟩

/-- C4, amended: for every response with status >= 400 (rather than every
non-2xx response), every verb method raises the typed error; the error
carries the numeric status and exactly one body representation — the
parsed JSON body (normalized to the empty object when the parsed value is
falsy) when the body is JSON, otherwise the raw text — and never both
populated at once. -/
theorem raise_for_status_ge_400_typed_error (resp : HttpResponse)
    (h : 400 ≤ resp.status) :
    ∃ e : ResponseCodeError,
      raise_for_status resp = some e ∧
      verbRequest resp = Except.error e ∧
      deleteRequest resp = Except.error e ∧
      e.status = resp.status ∧
      (match resp.jsonBody with
       | some j =>
         e.response_text = "" ∧ e.response_json = (if j.isTruthy then j else Json.obj [])
       | none => e.response_json = Json.obj [] ∧ e.response_text = resp.textBody) ∧
      (e.response_json = Json.obj [] ∨ e.response_text = "") := by
  have h204 : (resp.status == 204) = false := by
    have : resp.status ≠ 204 := by omega
    simpa using this
  cases hj : resp.jsonBody with
  | some j =>
    refine ⟨ResponseCodeError.ofJson resp.status j, ?_, ?_, ?_, rfl, ?_, Or.inr rfl⟩
    · simp [raise_for_status, hj, Nat.le_trans (by omega : 400 ≤ 400) h]
    · simp [verbRequest, raise_for_status, hj, h]
    · simp [deleteRequest, h204, verbRequest, raise_for_status, hj, h]
    · simp [hj, ResponseCodeError.ofJson]
  | none =>
    refine ⟨ResponseCodeError.ofText resp.status resp.textBody, ?_, ?_, ?_, rfl, ?_, Or.inl rfl⟩
    · simp [raise_for_status, hj, h]
    · simp [verbRequest, raise_for_status, hj, h]
    · simp [deleteRequest, h204, verbRequest, raise_for_status, hj, h]
    · simp [hj, ResponseCodeError.ofText]

/-- C4, witness: the amended theorem applied to a concrete 404 response
with a JSON body. -/
theorem raise_for_status_ge_400_typed_error_witness :
    ∃ e : ResponseCodeError,
      raise_for_status resp404 = some e ∧
      verbRequest resp404 = Except.error e ∧
      deleteRequest resp404 = Except.error e ∧
      e.status = resp404.status ∧
      (match resp404.jsonBody with
       | some j =>
         e.response_text = "" ∧ e.response_json = (if j.isTruthy then j else Json.obj [])
       | none => e.response_json = Json.obj [] ∧ e.response_text = resp404.textBody) ∧
      (e.response_json = Json.obj [] ∨ e.response_text = "") :=
  raise_for_status_ge_400_typed_error resp404 (by decide)

/-- C5: none of the three member-record writes produces a payload with
`member: true` together with a non-null `leave_date`: the insert sends
`member: true` with no `leave_date` key, the rejoin write sends
`member: true` with `leave_date: null`, and the leave write sends a
non-null `leave_date` only together with `member: false`. -/
theorem member_writes_preserve_leave_date_invariant (m : MemberInfo) (now : String) :
    (memberFlagTrue (insert_new_member m now) &&
      hasNonNullLeaveDate (insert_new_member m now)) = false ∧
    (memberFlagTrue (member_rejoined m) &&
      hasNonNullLeaveDate (member_rejoined m)) = false ∧
    (memberFlagTrue (member_left m now) &&
      hasNonNullLeaveDate (member_left m now)) = false :=
  ⟨rfl, rfl, rfl⟩

/-- C6, counterexample: with the bot's user id 99 reacting on the
designated channel with a mapped emoji, the add handler ignores the event
but the remove handler — which has no bot-self check — revokes the mapped
role from the bot member.  So it is false that both paths ignore the
bot's own reactions. -/
theorem on_raw_reaction_remove_bot_counterexample :
    botPayload0.user_id = 99 ∧
    on_raw_reaction_add cfg0 99 botPayload0 = [] ∧
    on_raw_reaction_remove cfg0 botPayload0 = [Effect.removeRole 99 5] :=
  ⟨rfl, rfl, rfl⟩

/-- C6, amended: only the reaction-add handler ignores the bot's own
reactions (no effect at all when the reacting user is the bot); the
reaction-remove handler performs no such check and treats the bot like any
member, revoking the mapped role when it resolves. -/
theorem on_raw_reaction_bot_handling (cfg : ReactionCfg) (botUserId : Nat)
    (p : RawReactionPayload) (h : p.user_id = botUserId) :
    on_raw_reaction_add cfg botUserId p = [] ∧
    on_raw_reaction_remove cfg p =
      (if p.channel_id = cfg.react_for_roles_channel_id then
        match get_assignable_role cfg p with
        | some rid => [Effect.removeRole p.user_id rid]
        | none => []
      else []) :=
  ⟨by simp [on_raw_reaction_add, h], rfl⟩

/-- C6, witness: the amended theorem at the concrete bot payload. -/
theorem on_raw_reaction_bot_handling_witness :
    on_raw_reaction_add cfg0 99 botPayload0 = [] ∧
    on_raw_reaction_remove cfg0 botPayload0 =
      (if botPayload0.channel_id = cfg0.react_for_roles_channel_id then
        match get_assignable_role cfg0 botPayload0 with
        | some rid => [Effect.removeRole botPayload0.user_id rid]
        | none => []
      else []) :=
  on_raw_reaction_bot_handling cfg0 99 botPayload0 rfl

/-- C7: the role-change listener `on_member_update` issues no remote
write when the guard flag is set or the role lists are unchanged: in both
cases its trace is empty, so `edit_member_roles` is not called. -/
theorem on_member_update_guard_no_write (lock : Bool) (m : MemberInfo)
    (beforeRoles afterRoles : List Nat)
    (h : lock = true ∨ beforeRoles = afterRoles) :
    on_member_update lock m beforeRoles afterRoles = [] := by
  rcases h with h | h
  · simp [on_member_update, h]
  · simp [on_member_update, h]

/-- C7, witness: the listener theorem at a concrete event delivered while
the guard is set (and with genuinely different role lists). -/
theorem on_member_update_guard_no_write_witness :
    on_member_update true m0 [1] [2] = [] :=
  on_member_update_guard_no_write true m0 [1] [2] (Or.inl rfl)

/-- C8: for a reaction-add on the designated channel whose emoji has no
entry in the static mapping, the handler's trace is empty (no role added
or removed, no message sent); the model is a total function, so no
exception propagates. -/
theorem on_raw_reaction_add_unmapped_noop (cfg : ReactionCfg) (botUserId : Nat)
    (p : RawReactionPayload) (h : cfg.self_assignable_roles p.emoji_id = none) :
    on_raw_reaction_add cfg botUserId p = [] := by
  simp [on_raw_reaction_add, get_assignable_role, h]

/-- C8, witness: the unmapped-emoji theorem at the concrete payload with
emoji 8, which `cfg0` does not map. -/
theorem on_raw_reaction_add_unmapped_noop_witness :
    on_raw_reaction_add cfg0 99 unmappedPayload0 = [] :=
  on_raw_reaction_add_unmapped_noop cfg0 99 unmappedPayload0 rfl

/-- C9: `add_member_warning` breaks the stored warnings format documented
in `get_member_warnings` (a list of JSON-encoded strings): on a store
with one serialized warning it writes back the old warning as a plain
object plus the new warning as a string, after which `get_member_warnings`
raises `TypeError` (`json.loads` on a non-string) instead of returning the
previous warnings plus the new one, and the count does not increase by
one — it errors too. -/
theorem add_member_warning_breaks_stored_format :
    get_member_warnings warnings0 = Except.ok [storedWarning] ∧
    get_member_warnings_count warnings0 = Except.ok 1 ∧
    add_member_warning warnings0 7 "spam" "2020-06-01T00:00:00+00:00" =
      Except.ok warnings1 ∧
    get_member_warnings warnings1 = Except.error PyExc.typeError ∧
    get_member_warnings_count warnings1 = Except.error PyExc.typeError :=
  ⟨rfl, rfl, rfl, rfl, rfl⟩

/-- C10: `add_verified_roles_to_member` does not always leave the guard
flag `False`: on the role-id list `[999]` with 999 absent from the guild,
`get_role` yields `None`, `member.add_roles(None)` raises
`AttributeError` past the `except HTTPException` clause, the
`self._database_role_update_lock = False` line is skipped, and the
function ends with the guard still `True` — permanently disabling the
role-change listener. -/
theorem add_verified_roles_lock_left_true :
    env0.get_role 999 = none ∧
    add_verified_roles_to_member env0 42 [999] =
      ([Effect.removeRole 42 200], true, some PyExc.attributeError) :=
  ⟨rfl, rfl⟩
